import Mathlib

/-!
Verification of the circuit core of torpy (`torpy/circuit.py`).

The Python source is shallowly embedded below.  Pure dispatch and state
logic is translated directly from `circuit.py`; external collaborators
that live in modules outside the provided sources (`torpy/stream.py`'s
`TorWindow` and stream lookup, `torpy/cells.py`'s `RelayedTorCell`,
`torpy/keyagreement.py`, `torpy/crypto_state.py`) are either modelled
from the specification (marked `Modelled from the spec:`) or abstracted
as parameters of the embedding.

Python exceptions are embedded as `Except` / explicit error results;
mutation is embedded as explicit state passing.  Each mutated object
(handler registry, flow-control window, circuit record) is threaded
through the functions that the source mutates in place.
-/

set_option autoImplicit false

namespace Torpy

/-- Errors raised by the circuit core (`circuit.py` raises Python
exceptions; the spec's error taxonomy names them). -/
inductive TorErr
  /-- A failing Python `assert` (e.g. `assert self._state == TorCircuitState.Unknown`,
  `@check_connected`). -/
  | assertionError
  /-- `CellTimeoutError`: waiter timed out in `Waiter.get`. -/
  | cellTimeout
  /-- `complete_handshake` failed to verify the server response. -/
  | handshakeFailed
  /-- `CircuitExtendError` raised by `TorCircuit.extend` on `CellRelayTruncated`,
  carrying the truncate reason. -/
  | circuitExtendFailed (reason : Nat)
  /-- `Exception('#... circuit is not yet connected')` raised by `destroy`
  in state Unknown. -/
  | circuitNotConnected
  /-- `Exception("It's not possible associate one circuit to more then one hidden service")`. -/
  | alreadyAssociated
  /-- `Exception("Can't extend to hidden service")`: directories and
  introductions exhausted. -/
  | hiddenServiceUnreachable
  /-- `RelayedTorCell.get_decrypted` invoked while the cell is still encrypted
  (no node recognised it). -/
  | cellNotDecrypted
deriving DecidableEq, Repr

/-- Cell classes handled by the circuit core (`torpy.cells`).  The handler
registry of `CellHandlerManager` is keyed by the runtime cell class, embedded
here as this tag type. -/
inductive CellType
  | create2
  | created2
  | destroyCell
  | relayExtend2
  | relayExtended2
  | relayTruncated
  | relayEnd
  | relayData
  | relaySendMe
  | relayConnected
  | relayEstablishRendezvous
  | relayRendezvousEstablished
  | relayIntroduce1
  | relayIntroduceAck
deriving DecidableEq, Repr

/-- An entry of a `CellHandlerManager` handler list: either a one-shot
`Waiter` (identified by `wid`) or a persistent callback (identified by `fid`).
`isinstance(handler, Waiter)` in `CellHandlerManager.handle` becomes a match
on this tag. -/
inductive Handler
  | waiter (wid : Nat)
  | callback (fid : Nat)
deriving DecidableEq, Repr

/-- Discriminates the `isinstance(handler, Waiter)` branch of
`CellHandlerManager.handle`. -/
def Handler.isWaiter : Handler → Bool
  | .waiter _ => true
  | .callback _ => false

/-- A recorded invocation performed during `CellHandlerManager.handle`:
`handler.handler(cell)` for waiters, `handler(cell, ...)` for callbacks.
`cell` is the identity of the dispatched cell. -/
inductive HandlerCall
  | toWaiter (wid : Nat) (cell : Nat)
  | toCallback (fid : Nat) (cell : Nat)
deriving DecidableEq, Repr

/-- Whether an invocation went to a `Waiter`. -/
def HandlerCall.isWaiterCall : HandlerCall → Bool
  | .toWaiter _ _ => true
  | .toCallback _ _ => false

/-- The `CellHandlerManager._handlers` dict: cell class → list of handlers,
embedded as an association list with unique keys. -/
def HandlerMap := List (CellType × List Handler)

instance : DecidableEq HandlerMap := by
  unfold HandlerMap
  infer_instance

instance : Repr HandlerMap := by
  unfold HandlerMap
  infer_instance

/-- `self._handlers.get(cell_type, [])`. -/
def mapGet : HandlerMap → CellType → List Handler
  | [], _ => []
  | (k, v) :: rest, t => if k = t then v else mapGet rest t

/-- `self._handlers[cell_type] = v` (update in place, insert if absent). -/
def mapSet : HandlerMap → CellType → List Handler → HandlerMap
  | [], t, v => [(t, v)]
  | (k, w) :: rest, t, v => if k = t then (t, v) :: rest else (k, w) :: mapSet rest t v

/-- `CellHandlerManager._subscribe_for_cell`: create the key with `[]` when
absent, then append the handler. -/
def subscribe_for_cell (m : HandlerMap) (t : CellType) (h : Handler) : HandlerMap :=
  mapSet m t (mapGet m t ++ [h])

/-- `CellHandlerManager.subscribe_for` over a list of cell types (the
single-type overload is the singleton list). -/
def subscribe_for (m : HandlerMap) (ts : List CellType) (h : Handler) : HandlerMap :=
  ts.foldl (fun acc t => subscribe_for_cell acc t h) m

/-- `CellHandlerManager._unsubscribe_for_cell`: `if handler in handlers:
handlers.remove(handler)` — removes the first occurrence only, and only
mutates the dict entry when present. -/
def unsubscribe_for_cell (m : HandlerMap) (t : CellType) (h : Handler) : HandlerMap :=
  if h ∈ mapGet m t then mapSet m t ((mapGet m t).erase h) else m

/-- `CellHandlerManager.unsubscribe_for` over a list of cell types. -/
def unsubscribe_for (m : HandlerMap) (ts : List CellType) (h : Handler) : HandlerMap :=
  ts.foldl (fun acc t => unsubscribe_for_cell acc t h) m

/-- The dispatch loop body of `CellHandlerManager.handle`:
iterates over a snapshot (`handlers[:]`) while mutating the current list
(`handlers.remove(handler)` for each waiter, i.e. erase of the first
occurrence).  Returns the final list and the invocations in order. -/
def runHandlers (cell : Nat) : List Handler → List Handler → List Handler × List HandlerCall
  | [], cur => (cur, [])
  | Handler.waiter w :: rest, cur =>
    let r := runHandlers cell rest (cur.erase (Handler.waiter w))
    (r.1, HandlerCall.toWaiter w cell :: r.2)
  | Handler.callback f :: rest, cur =>
    let r := runHandlers cell rest cur
    (r.1, HandlerCall.toCallback f cell :: r.2)

/-- `CellHandlerManager.handle(cell)`: look up the handler list for the
cell's class; when empty, log and return with the registry unchanged;
otherwise run the dispatch loop over a snapshot of the list and store the
mutated list back. -/
def handle (m : HandlerMap) (t : CellType) (cell : Nat) : HandlerMap × List HandlerCall :=
  let hs := mapGet m t
  if hs = [] then (m, [])
  else
    let r := runHandlers cell hs hs
    (mapSet m t r.1, r.2)

/-- Outcome of the Python block executed inside a `with` statement:
either it fell off the end normally or it raised. -/
inductive ScopeResult (α : Type)
  | normal (a : α)
  | raised (e : TorErr)
deriving DecidableEq, Repr

/-- `CellHandlerManager.create_waiter`, a `@contextmanager` generator:

```
w = Waiter(cell_types)
self.subscribe_for(cell_types, w)
yield w
self.unsubscribe_for(cell_types, w)
```

Per Python `contextlib` semantics, an exception raised in the `with` body is
thrown into the generator at the `yield`; since the generator body has no
`try/finally`, the `unsubscribe_for` line after the `yield` is only executed
when the body completes normally.  The embedding runs `body` on the registry
with the waiter subscribed and performs the cleanup only on the
`ScopeResult.normal` path, exactly as the generator does. -/
def create_waiter_scope {α : Type} (m : HandlerMap) (ts : List CellType) (wid : Nat)
    (body : HandlerMap → HandlerMap × ScopeResult α) : HandlerMap × ScopeResult α :=
  let m1 := subscribe_for m ts (Handler.waiter wid)
  match body m1 with
  | (m2, ScopeResult.normal a) => (unsubscribe_for m2 ts (Handler.waiter wid), ScopeResult.normal a)
  | (m2, ScopeResult.raised e) => (m2, ScopeResult.raised e)

/-!
### Onion encryption / decryption (`TorCircuit._encrypt` / `TorCircuit._decrypt`)

`RelayedTorCell` (from `torpy.cells`, outside the provided sources) carries a
mutable payload and an `is_encrypted` flag; `CryptoState.encrypt_forward` and
`CryptoState.decrypt_backward` (from `torpy.crypto_state`) mutate the cell in
place, and `decrypt_backward` clears the flag when the running digest
recognises the cell.  The embedding keeps the payload abstract as a `Nat` and
keeps each node's two crypto transformations fully abstract as functions, so
the theorems below hold for every possible collaborator behaviour. -/

/-- A relay cell as seen by `_encrypt`/`_decrypt`: abstract payload plus the
`is_encrypted` flag of `RelayedTorCell`. -/
structure RelayCellC where
  payload : Nat
  isEncrypted : Bool
deriving DecidableEq, Repr

/-- A `CircuitNode` as used on the crypto path: its identity and its
`crypto_state`'s two in-place transformations, kept abstract. -/
structure CryptoNode where
  rid : Nat
  encF : RelayCellC → RelayCellC
  decB : RelayCellC → RelayCellC

/-- `TorCircuit._encrypt`: asserts the cell is not yet encrypted, then
`for circuit_node in self._circuit_nodes[::-1]: circuit_node.encrypt_forward(relay_cell)`.
The failed assert is `none`. -/
def encryptCell (nodes : List CryptoNode) (c : RelayCellC) : Option RelayCellC :=
  if c.isEncrypted then none
  else some (nodes.reverse.foldl (fun cell n => n.encF cell) c)

/-- The loop of `TorCircuit._decrypt`: for each node in forward order, first
check `if not relay_cell.is_encrypted: break`, otherwise decrypt one layer and
record the node as `from_node`. -/
def decryptGo : List CryptoNode → Option CryptoNode → RelayCellC → Option CryptoNode × RelayCellC
  | [], fromNode, cell => (fromNode, cell)
  | n :: rest, fromNode, cell =>
    if cell.isEncrypted then decryptGo rest (some n) (n.decB cell)
    else (fromNode, cell)

/-- `TorCircuit._decrypt` up to its final `get_decrypted` call: asserts the
incoming cell is encrypted, then runs the peel loop with `from_node = None`. -/
def decryptCell (nodes : List CryptoNode) (cell : RelayCellC) :
    Option (Option CryptoNode × RelayCellC) :=
  if cell.isEncrypted then some (decryptGo nodes none cell) else none

/-- The cell obtained by peeling the first `k` nodes' layers (in forward
order) off `cell`.  Used to state which node's digest recognises the cell. -/
def decryptPeelK (nodes : List CryptoNode) (k : Nat) (cell : RelayCellC) : RelayCellC :=
  (nodes.take k).foldl (fun c n => n.decB c) cell

/-- Modelled from the spec: `RelayedTorCell.get_decrypted` (in `torpy/cells.py`,
not among the provided sources) yields the decoded inner cell; the spec requires
an inbound cell that no node recognises to be dropped, so on a still-encrypted
cell it fails rather than produce an inner cell. -/
def get_decrypted (c : RelayCellC) : Except TorErr Nat :=
  if c.isEncrypted then Except.error TorErr.cellNotDecrypted else Except.ok c.payload

/-- `TorCircuit.handle_relay`: decrypt, then dispatch the inner cell with
`from_node` to the handler manager.  The dispatch is represented by the
returned pair; any exception on the way (failed assert, `get_decrypted` on an
unrecognised cell) is the `Except.error` case and nothing is dispatched. -/
def handleRelayD (nodes : List CryptoNode) (cell : RelayCellC) :
    Except TorErr (Option CryptoNode × Nat) :=
  if cell.isEncrypted then
    let r := decryptGo nodes none cell
    match get_decrypted r.2 with
    | Except.error e => Except.error e
    | Except.ok inner => Except.ok (r.1, inner)
  else Except.error TorErr.assertionError

/-- `TorReceiver._do_recv`: each received cell is handled inside
`try: ... except BaseException: logger.exception(...)`, so a failing
`handle_relay` drops the cell and the loop continues with the next one.
Returns the dispatches that actually happen. -/
def doRecv (nodes : List CryptoNode) : List RelayCellC → List (Option CryptoNode × Nat)
  | [] => []
  | c :: rest =>
    match handleRelayD nodes c with
    | Except.ok d => d :: doRecv nodes rest
    | Except.error _ => doRecv nodes rest

/-!
### Flow control (`TorCircuit._sendme_process`, `TorCircuit._on_stream`)

`TorWindow` lives in `torpy/stream.py`, which is not among the provided
sources; it is modelled from the spec.  The stream manager lookup
(`StreamsManager.get_by_id`) is likewise modelled from the spec as a lookup in
the set of open stream ids. -/

/-- Modelled from the spec: `TorWindow` (from `torpy/stream.py`, not among the
provided sources).  Per-hop flow-control window with counters `package` and
`deliver`; both start at 1000, decrement by 1 per data cell, and are
replenished by SENDME in increments of 100. -/
structure TorWindow where
  deliver : Int
  package : Int
deriving DecidableEq, Repr

/-- Modelled from the spec: both counters start at 1000. -/
def TorWindow.start : TorWindow := ⟨1000, 1000⟩

/-- Modelled from the spec: decrement the deliver window by one received data
cell. -/
def TorWindow.deliver_dec (w : TorWindow) : TorWindow :=
  { w with deliver := w.deliver - 1 }

/-- Modelled from the spec: a received circuit-level SENDME replenishes the
package window by 100. -/
def TorWindow.package_inc (w : TorWindow) : TorWindow :=
  { w with package := w.package + 100 }

/-- Modelled from the spec: a SENDME is due when the deliver window reaches
the 900 threshold (start 1000 − increment 100); emitting it replenishes the
deliver window by the increment. -/
def TorWindow.need_sendme (w : TorWindow) : TorWindow × Bool :=
  if w.deliver > 900 then (w, false)
  else ({ w with deliver := w.deliver + 100 }, true)

/-- An inner relay cell as dispatched to `_on_stream`: its runtime class and
its `circuit_id` (used when emitting the answering SENDME). -/
structure RelayInner where
  ctype : CellType
  circuitId : Nat
deriving DecidableEq, Repr

/-- Observable side effects of the circuit core: cells handed to the sender
and streams closed. -/
inductive Effect
  | sentCreate2 (handshakeType circId : Nat)
  | sentDestroy (reason circId : Nat)
  | sentRelayExtend2 (ip port fingerprint : Nat)
  | sentRelaySendMe (circId : Nat)
  | sentEstablishRendezvous (cookie : Nat)
  | closedStream (sid : Nat)
deriving DecidableEq, Repr

/-- `TorCircuit._sendme_process(cell, from_node, orig_cell)` acting on the
node's window.  Returns the updated window, the cells sent (the answering
circuit-level SENDME, if due) and the boolean the source returns (`True`
stops `_on_stream`). -/
def sendme_process (cell : RelayInner) (w : TorWindow) (origStreamId : Nat) :
    TorWindow × List Effect × Bool :=
  if cell.ctype = CellType.relaySendMe ∧ origStreamId = 0 then
    (w.package_inc, [], true)
  else if cell.ctype = CellType.relayData then
    let w1 := w.deliver_dec
    let r := w1.need_sendme
    (r.1, if r.2 then [Effect.sentRelaySendMe cell.circuitId] else [], false)
  else (w, [], false)

/-- Where a cell dispatched to `_on_stream` ends up. -/
inductive StreamOutcome
  /-- `_sendme_process` returned `True`: circuit-level SENDME consumed, no
  stream dispatch. -/
  | handled
  /-- `self._stream_manager.get_by_id(orig_cell.stream_id)` found no stream:
  logged and dropped. -/
  | droppedUnknown (sid : Nat)
  /-- `stream.handle_cell(cell)`. -/
  | delivered (sid : Nat) (cell : RelayInner)
deriving DecidableEq, Repr

/-- `TorCircuit._on_stream(cell, from_node, orig_cell)`.  `streams` is the set
of stream ids currently known to the stream manager (`get_by_id` modelled from
the spec: lookup by `orig_cell.stream_id`, unknown ids are logged and
dropped). -/
def on_stream (streams : List Nat) (cell : RelayInner) (w : TorWindow) (origStreamId : Nat) :
    TorWindow × List Effect × StreamOutcome :=
  let r := sendme_process cell w origStreamId
  if r.2.2 then (r.1, r.2.1, StreamOutcome.handled)
  else if origStreamId ∈ streams then (r.1, r.2.1, StreamOutcome.delivered origStreamId cell)
  else (r.1, r.2.1, StreamOutcome.droppedUnknown origStreamId)

/-- Feeding `k` consecutive `RELAY_DATA` cells (all with stream id 0 absent
from the manager — only the window matters) through `_sendme_process`:
returns the final window and how many circuit-level SENDMEs were emitted. -/
def feedData (circId : Nat) (w : TorWindow) : Nat → TorWindow × Nat
  | 0 => (w, 0)
  | k + 1 =>
    let r := feedData circId w k
    let s := sendme_process ⟨CellType.relayData, circId⟩ r.1 0
    (s.1, r.2 + s.2.1.length)

/-!
### The circuit state machine (`TorCircuit.create/destroy/extend/extend_to_hidden`)

Key agreement (`torpy/keyagreement.py`) is not among the provided sources; the
completion of a handshake is abstracted as a parameter
`complete : Nat → Option Nat` from the server's handshake bytes to the shared
secret (`none` = verification failed).  The cells received in reply to a sent
cell are parameters of the corresponding operations (the waiter's outcome). -/

/-- An onion router descriptor, with the fields `circuit.py` reads. -/
structure OnionRouter where
  ip : Nat
  torPort : Nat
  fingerprint : Nat
  nickname : Nat
deriving DecidableEq, Repr

/-- `class TorHandshakeType: TAP = 0; FAST = 1; NTOR = 2`. -/
def TorHandshakeType.TAP : Nat := 0

/-- `FAST = 1` (present in the source, never used). -/
def TorHandshakeType.FAST : Nat := 1

/-- `NTOR = 2`, the default handshake type. -/
def TorHandshakeType.NTOR : Nat := 2

/-- A `CircuitNode`: router, chosen handshake type, and the crypto state that
becomes live (`some sharedSecret`) once `complete_handshake` succeeds. -/
structure CircuitNode where
  router : OnionRouter
  handshake_type : Nat
  crypto_state : Option Nat
deriving DecidableEq, Repr

/-- `class TorCircuitState: Unknown = 0`. -/
def TorCircuitState.Unknown : Nat := 0

/-- `Connected = 1`. -/
def TorCircuitState.Connected : Nat := 1

/-- `Destroyed = 2`. -/
def TorCircuitState.Destroyed : Nat := 2

/-- `CircuitReason.FINISHED` (tor destroy reason code 9, `torpy.cells`). -/
def CircuitReason.FINISHED : Nat := 9

/-- A hidden service handle, with the fields `extend_to_hidden` reads. -/
structure HiddenService where
  onion : Nat
  rendezvous_cookie : Nat
deriving DecidableEq, Repr

/-- Callback id used for `TorCircuit._on_truncated` in the handler registry. -/
def onTruncatedId : Nat := 0

/-- Callback id used for `TorCircuit._on_stream_end`. -/
def onStreamEndId : Nat := 1

/-- Callback id used for `TorCircuit._on_stream`. -/
def onStreamId : Nat := 2

/-- The mutable state of a `TorCircuit`: id and guard router from the
constructor, then `_state`, `_circuit_nodes` (the empty list embeds the
initial `None`), `_guard`, `_associated_hs`, the handler registry, and the
ids of the streams currently owned by its stream manager. -/
structure TorCirc where
  id : Nat
  router : OnionRouter
  state : Nat
  circuit_nodes : List CircuitNode
  guard : Option Nat
  associated_hs : Option HiddenService
  handlers : HandlerMap
  streams : List Nat
deriving DecidableEq, Repr

/-- The three `subscribe_for` calls performed by `TorCircuit.create`. -/
def subscribePersistent (m : HandlerMap) : HandlerMap :=
  let m1 := subscribe_for m [CellType.relayTruncated] (Handler.callback onTruncatedId)
  let m2 := subscribe_for m1 [CellType.relayEnd] (Handler.callback onStreamEndId)
  subscribe_for m2 [CellType.relayData, CellType.relaySendMe, CellType.relayConnected]
    (Handler.callback onStreamId)

/-- `TorCircuit.create(guard)`: under the state lock, assert the state is
Unknown, run `_initialize` (build `nodes[0]` with NTOR, send `CREATE2`,
wait for `CREATED2`, verify), then move to Connected, record the guard and
subscribe the persistent handlers.  `reply` is the awaited `CREATED2`
handshake data (`none`: the waiter failed, e.g. timed out), `complete` the
key-agreement completion. -/
def TorCirc.create (complete : Nat → Option Nat) (reply : Option Nat) (guard : Nat)
    (c : TorCirc) : TorCirc × List Effect × Except TorErr Unit :=
  if c.state = TorCircuitState.Unknown then
    let e := [Effect.sentCreate2 TorHandshakeType.NTOR c.id]
    match reply with
    | none => (c, e, Except.error TorErr.cellTimeout)
    | some d =>
      match complete d with
      | none => (c, e, Except.error TorErr.handshakeFailed)
      | some s =>
        ({ c with
            circuit_nodes := [⟨c.router, TorHandshakeType.NTOR, some s⟩],
            state := TorCircuitState.Connected,
            guard := some guard,
            handlers := subscribePersistent c.handlers },
          e, Except.ok ())
  else (c, [], Except.error TorErr.assertionError)

/-- `TorCircuit.destroy(send_destroy=True)`: under the state lock — if
Connected, close every stream and (when `send_destroy`) send
`DESTROY(FINISHED, id)`, then set Destroyed; if already Destroyed, only a
debug log before re-setting Destroyed; otherwise raise (the raise aborts
before the state assignment). -/
def TorCirc.destroy (c : TorCirc) (send_destroy : Bool) :
    TorCirc × List Effect × Except TorErr Unit :=
  if c.state = TorCircuitState.Connected then
    let closeEffs := c.streams.map Effect.closedStream
    let sendEffs := if send_destroy then [Effect.sentDestroy CircuitReason.FINISHED c.id] else []
    ({ c with streams := [], state := TorCircuitState.Destroyed },
      closeEffs ++ sendEffs, Except.ok ())
  else if c.state = TorCircuitState.Destroyed then
    ({ c with state := TorCircuitState.Destroyed }, [], Except.ok ())
  else (c, [], Except.error TorErr.circuitNotConnected)

/-- The reply awaited by `extend`: either `RELAY_EXTENDED2` with the server
handshake data or `RELAY_TRUNCATED` with a reason code. -/
inductive ExtendReply
  | extended2 (handshake_data : Nat)
  | truncated (reason : Nat)
deriving DecidableEq, Repr

/-- `TorCircuit.extend(next_onion_router, handshake_type=NTOR)`
(`@check_connected`): build a fresh node, send `RELAY_EXTEND2` (in a
`RELAY_EARLY`) and wait for `RELAY_EXTENDED2` or `RELAY_TRUNCATED`.  On
`TRUNCATED`, raise `CircuitExtendError(reason)` — nothing appended.  On
`EXTENDED2`, complete the handshake and append the node. -/
def TorCirc.extend (complete : Nat → Option Nat) (c : TorCirc) (r : OnionRouter)
    (handshake_type : Nat) (reply : ExtendReply) :
    TorCirc × List Effect × Except TorErr Unit :=
  if c.state = TorCircuitState.Connected then
    let e := [Effect.sentRelayExtend2 r.ip r.torPort r.fingerprint]
    match reply with
    | ExtendReply.truncated reason => (c, e, Except.error (TorErr.circuitExtendFailed reason))
    | ExtendReply.extended2 d =>
      match complete d with
      | none => (c, e, Except.error TorErr.handshakeFailed)
      | some s =>
        ({ c with circuit_nodes := c.circuit_nodes ++ [⟨r, handshake_type, some s⟩] },
          e, Except.ok ())
  else (c, [], Except.error TorErr.assertionError)

/-- `TorCircuit.extend_to_hidden(hidden_service)` under `extend_lock`: if
already associated with the same onion, return at once; if with a different
onion, raise; otherwise establish the rendezvous on this circuit and run the
directory/introduction loop.  That loop (`HiddenServiceConnector`, in
`torpy/hiddenservice.py`, not among the provided sources) is abstracted as
`introResult`: `Except.ok node` when some introduction succeeded with the new
rendezvous node (appended, and the association recorded), `Except.error` when
the wait failed or everything was exhausted. -/
def TorCirc.extend_to_hidden (c : TorCirc) (hs : HiddenService)
    (introResult : Except TorErr CircuitNode) :
    TorCirc × List Effect × Except TorErr Unit :=
  match c.associated_hs with
  | some h =>
    if h.onion = hs.onion then (c, [], Except.ok ())
    else (c, [], Except.error TorErr.alreadyAssociated)
  | none =>
    let e := [Effect.sentEstablishRendezvous hs.rendezvous_cookie]
    match introResult with
    | Except.ok node =>
      ({ c with circuit_nodes := c.circuit_nodes ++ [node], associated_hs := some hs },
        e, Except.ok ())
    | Except.error err => (c, e, Except.error err)

/-- The state-changing operations of the circuit, with the data each one
consumes (awaited replies, abstracted collaborator results). -/
inductive TorOp
  | opCreate (guard : Nat) (reply : Option Nat)
  | opDestroy (send_destroy : Bool)
  | opExtend (r : OnionRouter) (handshake_type : Nat) (reply : ExtendReply)
  | opExtendToHidden (hs : HiddenService) (introResult : Except TorErr CircuitNode)

/-- One operation applied to a circuit. -/
def TorCirc.stepOp (complete : Nat → Option Nat) (c : TorCirc) :
    TorOp → TorCirc × List Effect × Except TorErr Unit
  | TorOp.opCreate g reply => c.create complete reply g
  | TorOp.opDestroy sd => c.destroy sd
  | TorOp.opExtend r ht reply => c.extend complete r ht reply
  | TorOp.opExtendToHidden hs ir => c.extend_to_hidden hs ir

/-!
### Concrete values used by the closed witness theorems
-/

/-- A node whose crypto never recognises a cell (digest never matches). -/
def wNodeA : CryptoNode :=
  ⟨1, fun c => ⟨c.payload + 10, true⟩, fun c => ⟨c.payload + 1, true⟩⟩

/-- A node whose crypto recognises every cell it decrypts. -/
def wNodeB : CryptoNode :=
  ⟨2, fun c => ⟨c.payload + 20, true⟩, fun c => ⟨c.payload + 1, false⟩⟩

/-- A concrete encrypted relay cell. -/
def wCellEnc : RelayCellC := ⟨100, true⟩

/-- A registry holding one waiter subscribed for the two cell types
`extend` waits for. -/
def wMultiMap : HandlerMap :=
  subscribe_for [] [CellType.relayExtended2, CellType.relayTruncated] (Handler.waiter 5)

/-- A concrete guard router. -/
def wRouter : OnionRouter := ⟨10, 9001, 77, 5⟩

/-- A concrete next-hop router. -/
def wRouter2 : OnionRouter := ⟨11, 9002, 78, 6⟩

/-- A concrete hidden service. -/
def wHS : HiddenService := ⟨1234, 57⟩

/-- A hidden service with a different onion. -/
def wHS2 : HiddenService := ⟨9999, 58⟩

/-- A concrete rendezvous node returned by a successful introduction. -/
def wNode : CircuitNode := ⟨wRouter2, TorHandshakeType.TAP, some 3⟩

/-- A connected single-hop circuit with two open streams. -/
def wCircConnected : TorCirc :=
  ⟨5, wRouter, TorCircuitState.Connected, [⟨wRouter, TorHandshakeType.NTOR, some 42⟩],
    some 1, none, [], [7, 8]⟩

/-- A freshly constructed circuit. -/
def wCircUnknown : TorCirc :=
  ⟨6, wRouter, TorCircuitState.Unknown, [], none, none, [], []⟩

/-- An already destroyed circuit. -/
def wCircDestroyed : TorCirc :=
  ⟨7, wRouter, TorCircuitState.Destroyed, [], none, none, [], []⟩

/-- A connected circuit already associated with `wHS`. -/
def wCircAssoc : TorCirc :=
  ⟨8, wRouter, TorCircuitState.Connected, [⟨wRouter, TorHandshakeType.NTOR, some 42⟩],
    some 1, some wHS, [], []⟩

/-- A concrete key-agreement completion: succeeds only on server data `4`. -/
def wComplete : Nat → Option Nat := fun d => if d = 4 then some 9 else none

/-!
### Helper lemmas
-/

theorem mapGet_mapSet_self (m : HandlerMap) (t : CellType) (v : List Handler) :
    mapGet (mapSet m t v) t = v := by
  induction m with
  | nil => simp [mapSet, mapGet]
  | cons kv rest ih =>
    obtain ⟨k, w⟩ := kv
    by_cases h : k = t <;> simp [mapSet, mapGet, h, ih]

theorem mapGet_mapSet_ne (m : HandlerMap) (t t' : CellType) (v : List Handler) (h : t' ≠ t) :
    mapGet (mapSet m t v) t' = mapGet m t' := by
  induction m with
  | nil =>
    simp only [mapSet, mapGet]
    rw [if_neg (fun he : t = t' => h he.symm)]
  | cons kv rest ih =>
    obtain ⟨k, w⟩ := kv
    simp only [mapSet]
    by_cases hk : k = t
    · rw [if_pos hk]
      simp only [mapGet]
      rw [if_neg (fun he : t = t' => h he.symm),
        if_neg (fun he : k = t' => h (he.symm.trans hk))]
    · rw [if_neg hk]
      simp only [mapGet]
      by_cases hk' : k = t'
      · rw [if_pos hk', if_pos hk']
      · rw [if_neg hk', if_neg hk', ih]

theorem no_waiter_of_count (cur : List Handler)
    (h : ∀ w : Nat, cur.count (Handler.waiter w) = 0) :
    cur.filter Handler.isWaiter = [] := by
  induction cur with
  | nil => rfl
  | cons x rest ih =>
    cases x with
    | waiter w =>
      have := h w
      simp [List.count_cons] at this
    | callback f =>
      have h' : ∀ w, rest.count (Handler.waiter w) = 0 := by
        intro w
        have := h w
        simpa [List.count_cons] using this
      simpa [List.filter_cons, Handler.isWaiter] using ih h'

theorem runHandlers_filter_waiter (cell : Nat) (snap : List Handler) :
    ∀ cur : List Handler,
    (∀ w : Nat, cur.count (Handler.waiter w) ≤ snap.count (Handler.waiter w)) →
    (runHandlers cell snap cur).1.filter Handler.isWaiter = [] := by
  induction snap with
  | nil =>
    intro cur h
    apply no_waiter_of_count
    intro w
    have := h w
    simpa using this
  | cons x rest ih =>
    intro cur h
    cases x with
    | waiter w =>
      simp only [runHandlers]
      apply ih
      intro v
      by_cases hv : v = w
      · subst hv
        have h1 := h v
        rw [List.count_cons_self] at h1
        have h2 : (cur.erase (Handler.waiter v)).count (Handler.waiter v)
            = cur.count (Handler.waiter v) - 1 := List.count_erase_self _ _
        omega
      · have hne : Handler.waiter v ≠ Handler.waiter w := by
          simpa using hv
        have h1 := h v
        rw [List.count_cons_of_ne hne] at h1
        rw [List.count_erase_of_ne hne]
        exact h1
    | callback f =>
      simp only [runHandlers]
      apply ih
      intro v
      have h1 := h v
      rwa [List.count_cons_of_ne (by simp)] at h1

theorem runHandlers_calls_no_waiter (cell : Nat) (snap : List Handler) :
    ∀ cur : List Handler, snap.filter Handler.isWaiter = [] →
    (runHandlers cell snap cur).2.filter HandlerCall.isWaiterCall = [] := by
  induction snap with
  | nil => intro cur _; rfl
  | cons x rest ih =>
    intro cur h
    cases x with
    | waiter w => simp [List.filter_cons, Handler.isWaiter] at h
    | callback f =>
      simp only [List.filter_cons, Handler.isWaiter] at h
      simpa [runHandlers, List.filter_cons, HandlerCall.isWaiterCall] using
        ih cur (by simpa using h)

theorem handle_no_waiters_left (m : HandlerMap) (t : CellType) (cell : Nat) :
    (mapGet (handle m t cell).1 t).filter Handler.isWaiter = [] := by
  by_cases h : mapGet m t = []
  · simp [handle, h]
  · have hfst : (handle m t cell).1
        = mapSet m t (runHandlers cell (mapGet m t) (mapGet m t)).1 := by
      simp [handle, h]
    rw [hfst, mapGet_mapSet_self]
    exact runHandlers_filter_waiter cell _ _ (fun w => le_refl _)

theorem decryptPeelK_zero (nodes : List CryptoNode) (cell : RelayCellC) :
    decryptPeelK nodes 0 cell = cell := rfl

theorem decryptPeelK_succ (n : CryptoNode) (rest : List CryptoNode) (k : Nat)
    (cell : RelayCellC) :
    decryptPeelK (n :: rest) (k + 1) cell = decryptPeelK rest k (n.decB cell) := rfl

theorem decryptGo_not_enc (nodes : List CryptoNode) (fn : Option CryptoNode) (cell : RelayCellC)
    (h : cell.isEncrypted = false) :
    decryptGo nodes fn cell = (fn, cell) := by
  cases nodes <;> simp [decryptGo, h]

theorem decryptGo_stop (nodes : List CryptoNode) (cell : RelayCellC) (fn : Option CryptoNode)
    (i : Nat) (hlen : i < nodes.length)
    (hpre : ∀ j, j ≤ i → (decryptPeelK nodes j cell).isEncrypted = true)
    (hrec : (decryptPeelK nodes (i + 1) cell).isEncrypted = false) :
    decryptGo nodes fn cell = (some (nodes.get ⟨i, hlen⟩), decryptPeelK nodes (i + 1) cell) := by
  induction nodes generalizing cell fn i with
  | nil => exact absurd hlen (Nat.not_lt_zero i)
  | cons n rest ih =>
    have hc : cell.isEncrypted = true := hpre 0 (Nat.zero_le i)
    cases i with
    | zero =>
      have h1 : (n.decB cell).isEncrypted = false := hrec
      have hstep : decryptGo (n :: rest) fn cell = decryptGo rest (some n) (n.decB cell) := by
        simp [decryptGo, hc]
      rw [hstep, decryptGo_not_enc rest (some n) _ h1]
      rfl
    | succ k =>
      have hlen' : k < rest.length := Nat.lt_of_succ_lt_succ hlen
      have hpre' : ∀ j, j ≤ k → (decryptPeelK rest j (n.decB cell)).isEncrypted = true :=
        fun j hj => hpre (j + 1) (Nat.succ_le_succ hj)
      have hrec' : (decryptPeelK rest (k + 1) (n.decB cell)).isEncrypted = false := hrec
      have hstep : decryptGo (n :: rest) fn cell = decryptGo rest (some n) (n.decB cell) := by
        simp [decryptGo, hc]
      rw [hstep, ih (n.decB cell) (some n) k hlen' hpre' hrec']
      rfl

theorem decryptGo_all_enc (nodes : List CryptoNode) (cell : RelayCellC) (fn : Option CryptoNode)
    (h : ∀ j, j ≤ nodes.length → (decryptPeelK nodes j cell).isEncrypted = true) :
    (decryptGo nodes fn cell).2 = decryptPeelK nodes nodes.length cell := by
  induction nodes generalizing cell fn with
  | nil => rfl
  | cons n rest ih =>
    have hc : cell.isEncrypted = true := h 0 (Nat.zero_le _)
    have h' : ∀ j, j ≤ rest.length → (decryptPeelK rest j (n.decB cell)).isEncrypted = true :=
      fun j hj => h (j + 1) (Nat.succ_le_succ hj)
    have hstep : decryptGo (n :: rest) fn cell = decryptGo rest (some n) (n.decB cell) := by
      simp [decryptGo, hc]
    rw [hstep]
    exact ih (n.decB cell) (some n) h'

theorem sendme_process_data (cid : Nat) (w : TorWindow) (sid : Nat) :
    sendme_process ⟨CellType.relayData, cid⟩ w sid
      = if 900 < w.deliver - 1
        then ({ w with deliver := w.deliver - 1 }, [], false)
        else ({ w with deliver := w.deliver - 1 + 100 }, [Effect.sentRelaySendMe cid], false) := by
  simp only [sendme_process, TorWindow.deliver_dec, TorWindow.need_sendme]
  split_ifs with h1 h2 h3 <;> simp_all

theorem feedData_start (cid : Nat) : ∀ k : Nat,
    feedData cid TorWindow.start k
      = (⟨1000 - ((k % 100 : Nat) : Int), 1000⟩, k / 100) := by
  intro k
  induction k with
  | zero => simp [feedData, TorWindow.start]
  | succ k ih =>
    have hlt : k % 100 < 100 := Nat.mod_lt _ (by norm_num)
    simp only [feedData, ih, sendme_process_data]
    by_cases h99 : k % 100 = 99
    · have hc : ¬(900 < (1000 - ((k % 100 : Nat) : Int)) - 1) := by
        rw [h99]
        norm_num
      rw [if_neg hc]
      simp only [List.length_singleton, Prod.mk.injEq, TorWindow.mk.injEq]
      exact ⟨⟨by omega, trivial⟩, by omega⟩
    · have hc : 900 < (1000 - ((k % 100 : Nat) : Int)) - 1 := by omega
      rw [if_pos hc]
      simp only [List.length_nil, Prod.mk.injEq, TorWindow.mk.injEq]
      exact ⟨⟨by omega, trivial⟩, by omega⟩

/-!
### Claim theorems
-/

/-- C1: For every circuit with nodes `[n1…nk]` and every outbound relay cell,
`_encrypt` applies `encrypt_forward` over the nodes in strictly reverse order
`nk…n1`, so the wire bytes equal the k-fold nesting with `n1` outermost
(`List.foldr`); and for every inbound relay cell, `_decrypt` applies
`decrypt_backward` in strictly forward order `n1…nk`, stopping at the first
node whose running digest recognises the cell (index `i`: peeling `i+1`
layers clears `is_encrypted` while every shorter peel leaves it set), and
that node is the `from_node` dispatched by `handle_relay` together with the
decrypted inner cell. -/
theorem onion_order_and_decrypt_stop (nodes : List CryptoNode) (cell : RelayCellC) (i : Nat)
    (hlen : i < nodes.length)
    (hpre : ∀ j, j ≤ i → (decryptPeelK nodes j cell).isEncrypted = true)
    (hrec : (decryptPeelK nodes (i + 1) cell).isEncrypted = false) :
    (∀ c0 : RelayCellC, c0.isEncrypted = false →
      encryptCell nodes c0 = some (nodes.foldr (fun n acc => n.encF acc) c0)) ∧
    decryptCell nodes cell
      = some (some (nodes.get ⟨i, hlen⟩), decryptPeelK nodes (i + 1) cell) ∧
    handleRelayD nodes cell
      = Except.ok (some (nodes.get ⟨i, hlen⟩), (decryptPeelK nodes (i + 1) cell).payload) := by
  have hc : cell.isEncrypted = true := hpre 0 (Nat.zero_le i)
  have hstop := decryptGo_stop nodes cell none i hlen hpre hrec
  refine ⟨?_, ?_, ?_⟩
  · intro c0 h0
    simp [encryptCell, h0, List.foldl_reverse]
  · simp [decryptCell, hc, hstop]
  · simp [handleRelayD, hc, hstop, get_decrypted, hrec]

/-- Witness for C1: a two-node circuit whose second node recognises the cell;
the wire bytes carry node 1's layer outermost. -/
theorem onion_order_and_decrypt_stop_witness :
    encryptCell [wNodeA, wNodeB] ⟨5, false⟩ = some ⟨35, true⟩ ∧
    decryptCell [wNodeA, wNodeB] wCellEnc = some (some wNodeB, ⟨102, false⟩) ∧
    handleRelayD [wNodeA, wNodeB] wCellEnc = Except.ok (some wNodeB, 102) := by
  have h := onion_order_and_decrypt_stop [wNodeA, wNodeB] wCellEnc 1 (by decide)
    (by decide) (by decide)
  exact ⟨h.1 ⟨5, false⟩ rfl, h.2.1, h.2.2⟩

/-- C2 (code bug in the source): `CellHandlerManager.create_waiter` is a
`@contextmanager` whose generator body has no `try/finally`, so the
`unsubscribe_for` after the `yield` runs only when the scope body completes
normally.  On the normal exit path the waiter is unsubscribed (first
conjunct), but a body that raises — e.g. `CellTimeoutError` from
`Waiter.get` — leaves the waiter subscribed in the registry (second
conjunct), contradicting the claim that the waiter is unsubscribed on every
exit path. -/
theorem scoped_waiter_leak_on_exception :
    (create_waiter_scope ([] : HandlerMap) [CellType.created2] 7
        (fun m1 => (m1, (ScopeResult.normal 0 : ScopeResult Nat)))).1
      = [(CellType.created2, [])] ∧
    (create_waiter_scope ([] : HandlerMap) [CellType.created2] 7
        (fun m1 => (m1, (ScopeResult.raised TorErr.cellTimeout : ScopeResult Nat)))).1
      = [(CellType.created2, [Handler.waiter 7])] :=
  ⟨rfl, rfl⟩

/-- C8 counterexample: a waiter subscribed for both `RELAY_EXTENDED2` and
`RELAY_TRUNCATED` is dispatched an `EXTENDED2` cell (first conjunct), yet
after that first match it is still registered under `RELAY_TRUNCATED`
(second conjunct) and is invoked again for a later `TRUNCATED` cell (third
conjunct) — refuting the claim that after the first dispatch the waiter is
not invoked for any later cell of any of its subscribed types. -/
theorem multi_type_waiter_reinvoked :
    (handle wMultiMap CellType.relayExtended2 11).2 = [HandlerCall.toWaiter 5 11] ∧
    Handler.waiter 5
      ∈ mapGet (handle wMultiMap CellType.relayExtended2 11).1 CellType.relayTruncated ∧
    (handle (handle wMultiMap CellType.relayExtended2 11).1 CellType.relayTruncated 22).2
      = [HandlerCall.toWaiter 5 22] := by
  decide

/-- C8 (amended): after `handle` dispatches a cell of type `t`, every waiter
is removed from `t`'s handler list (so no waiter is invoked for a later cell
of that same type — third conjunct), but the lists of the other cell types a
waiter may also be subscribed to are untouched (first conjunct); such a
waiter is only removed from those lists by an explicit unsubscribe. -/
theorem waiter_removed_per_type (m : HandlerMap) (t t' : CellType) (c c' : Nat)
    (hne : t' ≠ t) :
    mapGet (handle m t c).1 t' = mapGet m t' ∧
    (mapGet (handle m t c).1 t).filter Handler.isWaiter = [] ∧
    (handle (handle m t c).1 t c').2.filter HandlerCall.isWaiterCall = [] := by
  refine ⟨?_, handle_no_waiters_left m t c, ?_⟩
  · by_cases h : mapGet m t = []
    · simp [handle, h]
    · have hfst : (handle m t c).1
          = mapSet m t (runHandlers c (mapGet m t) (mapGet m t)).1 := by
        simp [handle, h]
      rw [hfst, mapGet_mapSet_ne _ _ _ _ hne]
  · have hnw := handle_no_waiters_left m t c
    set m1 := (handle m t c).1 with hm1
    by_cases h : mapGet m1 t = []
    · simp [handle, h]
    · have hsnd : (handle m1 t c').2
          = (runHandlers c' (mapGet m1 t) (mapGet m1 t)).2 := by
        simp [handle, h]
      rw [hsnd]
      exact runHandlers_calls_no_waiter c' _ _ hnw

/-- Witness for the amended C8 at the concrete two-type waiter registry. -/
theorem waiter_removed_per_type_witness :
    mapGet (handle wMultiMap CellType.relayExtended2 11).1 CellType.relayTruncated
      = mapGet wMultiMap CellType.relayTruncated ∧
    (mapGet (handle wMultiMap CellType.relayExtended2 11).1 CellType.relayExtended2).filter
      Handler.isWaiter = [] ∧
    (handle (handle wMultiMap CellType.relayExtended2 11).1
        CellType.relayExtended2 12).2.filter HandlerCall.isWaiterCall = [] :=
  waiter_removed_per_type wMultiMap CellType.relayExtended2 CellType.relayTruncated 11 12
    (by decide)

/-- C9: an inbound relay cell that no node of the circuit recognises (every
peel leaves `is_encrypted` set) is not dispatched — `handle_relay` fails at
`get_decrypted` — and the receive loop swallows the failure and continues
with the remaining cells. -/
theorem unrecognized_cell_dropped (nodes : List CryptoNode) (cell : RelayCellC)
    (hall : ∀ j, j ≤ nodes.length → (decryptPeelK nodes j cell).isEncrypted = true) :
    handleRelayD nodes cell = Except.error TorErr.cellNotDecrypted ∧
    ∀ rest : List RelayCellC, doRecv nodes (cell :: rest) = doRecv nodes rest := by
  have hc : cell.isEncrypted = true := hall 0 (Nat.zero_le _)
  have h2 : (decryptGo nodes none cell).2.isEncrypted = true := by
    rw [decryptGo_all_enc nodes cell none hall]
    exact hall nodes.length (le_refl _)
  have herr : handleRelayD nodes cell = Except.error TorErr.cellNotDecrypted := by
    simp [handleRelayD, hc, get_decrypted, h2]
  exact ⟨herr, fun rest => by simp [doRecv, herr]⟩

/-- Witness for C9: a one-node circuit that never recognises the cell. -/
theorem unrecognized_cell_dropped_witness :
    handleRelayD [wNodeA] wCellEnc = Except.error TorErr.cellNotDecrypted ∧
    doRecv [wNodeA] [wCellEnc, ⟨7, false⟩] = doRecv [wNodeA] [⟨7, false⟩] := by
  have h := unrecognized_cell_dropped [wNodeA] wCellEnc (by decide)
  exact ⟨h.1, h.2 [⟨7, false⟩]⟩

/-- C3: `_on_stream` dispatch.  A `RELAY_SENDME` whose originating relay cell
has stream id 0 increments the node's package window and stops dispatch; a
`RELAY_DATA` decrements the node's deliver window, a circuit-level
`RELAY_SENDME` is emitted exactly when the decremented window reaches the
900 threshold (after which it is replenished by 100), and dispatch continues
to the stream lookup.  The third conjunct expresses the "100 cells since the
last SENDME" reading: feeding `k` data cells from a fresh window emits
exactly `k / 100` SENDMEs and leaves the deliver window at
`1000 - k % 100`. -/
theorem on_stream_sendme_and_data (streams : List Nat) (w : TorWindow) (sid : Nat)
    (cell : RelayInner) :
    (cell.ctype = CellType.relaySendMe → sid = 0 →
      on_stream streams cell w sid = (w.package_inc, [], StreamOutcome.handled)) ∧
    (cell.ctype = CellType.relayData →
      on_stream streams cell w sid
        = ((if 900 < w.deliver - 1 then { w with deliver := w.deliver - 1 }
            else { w with deliver := w.deliver - 1 + 100 }),
           (if 900 < w.deliver - 1 then [] else [Effect.sentRelaySendMe cell.circuitId]),
           (if sid ∈ streams then StreamOutcome.delivered sid cell
            else StreamOutcome.droppedUnknown sid))) ∧
    (∀ k : Nat, (feedData cell.circuitId TorWindow.start k).2 = k / 100 ∧
      (feedData cell.circuitId TorWindow.start k).1.deliver
        = 1000 - ((k % 100 : Nat) : Int)) := by
  obtain ⟨ct, cid⟩ := cell
  refine ⟨?_, ?_, ?_⟩
  · intro hct hsid
    subst hsid
    simp only at hct
    subst hct
    simp [on_stream, sendme_process]
  · intro hct
    simp only at hct
    subst hct
    rw [show on_stream streams ⟨CellType.relayData, cid⟩ w sid
        = (let r := sendme_process ⟨CellType.relayData, cid⟩ w sid
           if r.2.2 then (r.1, r.2.1, StreamOutcome.handled)
           else if sid ∈ streams then (r.1, r.2.1, StreamOutcome.delivered sid ⟨CellType.relayData, cid⟩)
           else (r.1, r.2.1, StreamOutcome.droppedUnknown sid)) from rfl]
    rw [sendme_process_data]
    by_cases hc : 900 < w.deliver - 1 <;>
      by_cases hm : sid ∈ streams <;>
        simp [hc, hm]
  · intro k
    rw [feedData_start]
    exact ⟨rfl, rfl⟩

/-- Witness for C3: circuit-level SENDME handling, a data cell that crosses
the 900 threshold (window 901 → 900 → replenished to 1000, one SENDME out),
and 250 data cells from a fresh window yielding exactly 2 SENDMEs. -/
theorem on_stream_sendme_and_data_witness :
    on_stream [3] ⟨CellType.relaySendMe, 5⟩ ⟨901, 1000⟩ 0
      = (⟨901, 1100⟩, [], StreamOutcome.handled) ∧
    on_stream [3] ⟨CellType.relayData, 5⟩ ⟨901, 1000⟩ 3
      = (⟨1000, 1000⟩, [Effect.sentRelaySendMe 5],
         StreamOutcome.delivered 3 ⟨CellType.relayData, 5⟩) ∧
    (feedData 5 TorWindow.start 250).2 = 2 := by
  refine ⟨(on_stream_sendme_and_data [3] ⟨901, 1000⟩ 0 ⟨CellType.relaySendMe, 5⟩).1 rfl rfl,
    ?_, ?_⟩
  · have h := (on_stream_sendme_and_data [3] ⟨901, 1000⟩ 3 ⟨CellType.relayData, 5⟩).2.1 rfl
    simpa using h
  · have h := ((on_stream_sendme_and_data [3] ⟨901, 1000⟩ 3 ⟨CellType.relayData, 5⟩).2.2 250).1
    simpa using h

/-- C10: a `RELAY_SENDME` whose originating relay cell carries a non-zero
stream id is not treated as circuit-level: the node's window (both counters)
is unchanged, nothing is emitted, and the cell goes through the stream
lookup — delivered to the stream with that id, or logged and dropped when no
such stream exists. -/
theorem stream_sendme_forwarded (streams : List Nat) (w : TorWindow) (sid : Nat)
    (cell : RelayInner) (hct : cell.ctype = CellType.relaySendMe) (hsid : sid ≠ 0) :
    on_stream streams cell w sid
      = (w, [], if sid ∈ streams then StreamOutcome.delivered sid cell
                else StreamOutcome.droppedUnknown sid) := by
  obtain ⟨ct, cid⟩ := cell
  simp only at hct
  subst hct
  by_cases hm : sid ∈ streams <;> simp [on_stream, sendme_process, hsid, hm]

/-- Witness for C10: the window is untouched and the cell reaches stream 4. -/
theorem stream_sendme_forwarded_witness :
    on_stream [4] ⟨CellType.relaySendMe, 5⟩ ⟨950, 1000⟩ 4
      = (⟨950, 1000⟩, [], StreamOutcome.delivered 4 ⟨CellType.relaySendMe, 5⟩) := by
  have h := stream_sendme_forwarded [4] ⟨950, 1000⟩ 4 ⟨CellType.relaySendMe, 5⟩ rfl (by decide)
  simpa using h

/-- C4: on a Connected circuit, `extend` answered by `RELAY_TRUNCATED` fails
with `CircuitExtendError` carrying the truncate reason while the circuit
record — its `nodes` and its Connected state — is returned unchanged; and
`extend` answered by `RELAY_EXTENDED2` (with a verifying handshake) appends
exactly the new node. -/
theorem extend_truncated_or_extended (complete : Nat → Option Nat) (c : TorCirc)
    (r : OnionRouter) (ht : Nat) (hconn : c.state = TorCircuitState.Connected) :
    (∀ reason, c.extend complete r ht (ExtendReply.truncated reason)
      = (c, [Effect.sentRelayExtend2 r.ip r.torPort r.fingerprint],
         Except.error (TorErr.circuitExtendFailed reason))) ∧
    (∀ d s, complete d = some s →
      c.extend complete r ht (ExtendReply.extended2 d)
        = ({ c with circuit_nodes := c.circuit_nodes ++ [⟨r, ht, some s⟩] },
           [Effect.sentRelayExtend2 r.ip r.torPort r.fingerprint], Except.ok ())) := by
  constructor
  · intro reason
    simp [TorCirc.extend, hconn]
  · intro d s hd
    simp [TorCirc.extend, hconn, hd]

/-- Witness for C4 on a concrete connected circuit: the refused extend and
the successful extend. -/
theorem extend_truncated_or_extended_witness :
    wCircConnected.extend wComplete wRouter2 TorHandshakeType.NTOR (ExtendReply.truncated 5)
      = (wCircConnected, [Effect.sentRelayExtend2 11 9002 78],
         Except.error (TorErr.circuitExtendFailed 5)) ∧
    wCircConnected.extend wComplete wRouter2 TorHandshakeType.NTOR (ExtendReply.extended2 4)
      = ({ wCircConnected with
            circuit_nodes := wCircConnected.circuit_nodes
              ++ [⟨wRouter2, TorHandshakeType.NTOR, some 9⟩] },
         [Effect.sentRelayExtend2 11 9002 78], Except.ok ()) := by
  have h := extend_truncated_or_extended wComplete wCircConnected wRouter2
    TorHandshakeType.NTOR rfl
  exact ⟨h.1 5, h.2 4 9 rfl⟩

/-- C5: the circuit state only moves forward through
Unknown → Connected → Destroyed: every operation leaves the state
numerically non-decreasing (first conjunct, so there is no reverse
transition out of Connected or Destroyed), `create` moves Unknown to
Connected and fails by assertion in every other state, `destroy` from
Connected or Destroyed lands in the terminal state Destroyed, and any
operation applied to a Destroyed circuit leaves it Destroyed. -/
theorem circuit_state_monotone (complete : Nat → Option Nat) (c : TorCirc) :
    (∀ op, c.state ≤ (c.stepOp complete op).1.state) ∧
    (∀ g d s, c.state = TorCircuitState.Unknown → complete d = some s →
      (c.create complete (some d) g).1.state = TorCircuitState.Connected) ∧
    (∀ g reply, c.state ≠ TorCircuitState.Unknown →
      c.create complete reply g = (c, [], Except.error TorErr.assertionError)) ∧
    (∀ sd, c.state = TorCircuitState.Connected ∨ c.state = TorCircuitState.Destroyed →
      (c.destroy sd).1.state = TorCircuitState.Destroyed) ∧
    (∀ op, c.state = TorCircuitState.Destroyed →
      (c.stepOp complete op).1.state = TorCircuitState.Destroyed) := by
  refine ⟨?_, ?_, ?_, ?_, ?_⟩
  · intro op
    cases op with
    | opCreate g reply =>
      simp only [TorCirc.stepOp, TorCirc.create]
      split_ifs with h
      · cases reply with
        | none => simp
        | some d =>
          cases hc : complete d with
          | none => simp [hc]
          | some s =>
            simp only [hc]
            rw [h]
            decide
      · simp
    | opDestroy sd =>
      simp only [TorCirc.stepOp, TorCirc.destroy]
      split_ifs with h1 h2 <;>
        simp_all [TorCircuitState.Connected, TorCircuitState.Destroyed]
    | opExtend r ht reply =>
      simp only [TorCirc.stepOp, TorCirc.extend]
      split_ifs with h
      · cases reply with
        | truncated reason => simp
        | extended2 d =>
          cases hc : complete d with
          | none => simp [hc]
          | some s => simp [hc]
      · simp
    | opExtendToHidden hs ir =>
      simp only [TorCirc.stepOp, TorCirc.extend_to_hidden]
      cases hhs : c.associated_hs with
      | some h => by_cases ho : h.onion = hs.onion <;> simp [ho]
      | none =>
        cases ir with
        | ok node => simp
        | error e => simp
  · intro g d s hu hc
    simp [TorCirc.create, hu, hc, TorCircuitState.Unknown]
  · intro g reply hne
    simp [TorCirc.create, hne]
  · intro sd hcase
    cases hcase with
    | inl h => simp [TorCirc.destroy, h, TorCircuitState.Connected]
    | inr h =>
      simp [TorCirc.destroy, h, TorCircuitState.Connected, TorCircuitState.Destroyed]
  · intro op hd
    cases op with
    | opCreate g reply =>
      have hne : c.state ≠ TorCircuitState.Unknown := by
        rw [hd]
        simp [TorCircuitState.Unknown, TorCircuitState.Destroyed]
      simp [TorCirc.stepOp, TorCirc.create, hne, hd, TorCircuitState.Unknown,
        TorCircuitState.Connected, TorCircuitState.Destroyed]
    | opDestroy sd =>
      have hnc : c.state ≠ TorCircuitState.Connected := by
        rw [hd]
        simp [TorCircuitState.Connected, TorCircuitState.Destroyed]
      simp [TorCirc.stepOp, TorCirc.destroy, hnc, hd, TorCircuitState.Unknown,
        TorCircuitState.Connected, TorCircuitState.Destroyed]
    | opExtend r ht reply =>
      have hnc : c.state ≠ TorCircuitState.Connected := by
        rw [hd]
        simp [TorCircuitState.Connected, TorCircuitState.Destroyed]
      simp [TorCirc.stepOp, TorCirc.extend, hnc, hd, TorCircuitState.Unknown,
        TorCircuitState.Connected, TorCircuitState.Destroyed]
    | opExtendToHidden hs ir =>
      simp only [TorCirc.stepOp, TorCirc.extend_to_hidden]
      cases hhs : c.associated_hs with
      | some h => by_cases ho : h.onion = hs.onion <;> simp [ho, hd]
      | none =>
        cases ir with
        | ok node => simp [hd]
        | error e => simp [hd]

/-- Witness for C5 at concrete circuits in each state. -/
theorem circuit_state_monotone_witness :
    (wCircUnknown.create wComplete (some 4) 3).1.state = TorCircuitState.Connected ∧
    wCircDestroyed.create wComplete (some 4) 3
      = (wCircDestroyed, [], Except.error TorErr.assertionError) ∧
    (wCircConnected.destroy true).1.state = TorCircuitState.Destroyed ∧
    (wCircDestroyed.stepOp wComplete (TorOp.opDestroy true)).1.state
      = TorCircuitState.Destroyed ∧
    wCircUnknown.state ≤ (wCircUnknown.stepOp wComplete (TorOp.opCreate 3 (some 4))).1.state := by
  have hU := circuit_state_monotone wComplete wCircUnknown
  have hD := circuit_state_monotone wComplete wCircDestroyed
  have hC := circuit_state_monotone wComplete wCircConnected
  exact ⟨hU.2.1 3 4 9 rfl rfl, hD.2.2.1 3 (some 4) (by decide),
    hC.2.2.2.1 true (Or.inl rfl), hD.2.2.2.2 (TorOp.opDestroy true) rfl,
    hU.1 (TorOp.opCreate 3 (some 4))⟩

/-- C6: `destroy` is idempotent — a second `destroy` right after a first one
changes nothing, sends nothing and closes nothing (first conjunct); on an
already Destroyed circuit it is a pure no-op with no cells sent and no
streams closed (second conjunct); and on a circuit still Unknown it fails
with the not-yet-connected error, leaving the circuit unchanged (third
conjunct). -/
theorem destroy_idempotent (c : TorCirc) (sd : Bool) :
    (c.destroy sd).1.destroy sd = ((c.destroy sd).1, [], (c.destroy sd).2.2) ∧
    (c.state = TorCircuitState.Destroyed → c.destroy sd = (c, [], Except.ok ())) ∧
    (c.state = TorCircuitState.Unknown →
      c.destroy sd = (c, [], Except.error TorErr.circuitNotConnected)) := by
  refine ⟨?_, ?_, ?_⟩
  · by_cases h1 : c.state = TorCircuitState.Connected
    · simp [TorCirc.destroy, h1, TorCircuitState.Connected, TorCircuitState.Destroyed]
    · by_cases h2 : c.state = TorCircuitState.Destroyed
      · simp [TorCirc.destroy, h1, h2, TorCircuitState.Connected, TorCircuitState.Destroyed]
      · simp [TorCirc.destroy, h1, h2]
  · intro h
    have h1 : c.state ≠ TorCircuitState.Connected := by
      rw [h]
      simp [TorCircuitState.Connected, TorCircuitState.Destroyed]
    have hcirc : { c with state := TorCircuitState.Destroyed } = c := by
      cases c
      simp_all
    simp only [TorCirc.destroy]
    rw [if_neg h1, if_pos h, hcirc]
  · intro h
    have h1 : c.state ≠ TorCircuitState.Connected := by
      rw [h]
      simp [TorCircuitState.Connected, TorCircuitState.Unknown]
    have h2 : c.state ≠ TorCircuitState.Destroyed := by
      rw [h]
      simp [TorCircuitState.Destroyed, TorCircuitState.Unknown]
    simp [TorCirc.destroy, h1, h2]

/-- Witness for C6: destroy twice on a connected circuit, and single calls on
Destroyed and Unknown circuits. -/
theorem destroy_idempotent_witness :
    (wCircConnected.destroy true).1.destroy true
      = ((wCircConnected.destroy true).1, [], (wCircConnected.destroy true).2.2) ∧
    wCircDestroyed.destroy true = (wCircDestroyed, [], Except.ok ()) ∧
    wCircUnknown.destroy true = (wCircUnknown, [], Except.error TorErr.circuitNotConnected) :=
  ⟨(destroy_idempotent wCircConnected true).1,
   (destroy_idempotent wCircDestroyed true).2.1 rfl,
   (destroy_idempotent wCircUnknown true).2.2 rfl⟩

/-- C7: `extend_to_hidden` against the onion the circuit is already
associated with returns at once — no rendezvous establishment, no effects,
circuit unchanged; against a different onion it fails with the
already-associated error, circuit unchanged; and after a first successful
association (no prior association, a successful introduction) the circuit
carries `associated_hs = hs` with the rendezvous node appended, so a second
call with the same onion is exactly the no-op of the first conjunct. -/
theorem extend_to_hidden_assoc (c : TorCirc) (hs : HiddenService)
    (ir : Except TorErr CircuitNode) :
    (∀ h, c.associated_hs = some h → h.onion = hs.onion →
      c.extend_to_hidden hs ir = (c, [], Except.ok ())) ∧
    (∀ h, c.associated_hs = some h → h.onion ≠ hs.onion →
      c.extend_to_hidden hs ir = (c, [], Except.error TorErr.alreadyAssociated)) ∧
    (∀ node, c.associated_hs = none → ir = Except.ok node →
      c.extend_to_hidden hs ir
        = ({ c with circuit_nodes := c.circuit_nodes ++ [node], associated_hs := some hs },
           [Effect.sentEstablishRendezvous hs.rendezvous_cookie], Except.ok ()) ∧
      ∀ ir2,
        ({ c with circuit_nodes := c.circuit_nodes ++ [node], associated_hs := some hs }
            : TorCirc).extend_to_hidden hs ir2
          = ({ c with circuit_nodes := c.circuit_nodes ++ [node], associated_hs := some hs },
             [], Except.ok ())) := by
  refine ⟨?_, ?_, ?_⟩
  · intro h hh honion
    simp [TorCirc.extend_to_hidden, hh, honion]
  · intro h hh honion
    simp [TorCirc.extend_to_hidden, hh, honion]
  · intro node hnone hok
    subst hok
    refine ⟨by simp [TorCirc.extend_to_hidden, hnone], ?_⟩
    intro ir2
    simp [TorCirc.extend_to_hidden]

/-- Witness for C7: same-onion re-association is a no-op, different-onion
fails, and a fresh association appends the rendezvous node and pins the
circuit; the immediate second call is a no-op. -/
theorem extend_to_hidden_assoc_witness :
    wCircAssoc.extend_to_hidden wHS (Except.error TorErr.cellTimeout)
      = (wCircAssoc, [], Except.ok ()) ∧
    wCircAssoc.extend_to_hidden wHS2 (Except.ok wNode)
      = (wCircAssoc, [], Except.error TorErr.alreadyAssociated) ∧
    wCircConnected.extend_to_hidden wHS (Except.ok wNode)
      = ({ wCircConnected with
            circuit_nodes := wCircConnected.circuit_nodes ++ [wNode],
            associated_hs := some wHS },
         [Effect.sentEstablishRendezvous 57], Except.ok ()) ∧
    ({ wCircConnected with
        circuit_nodes := wCircConnected.circuit_nodes ++ [wNode],
        associated_hs := some wHS } : TorCirc).extend_to_hidden wHS
        (Except.error TorErr.cellTimeout)
      = ({ wCircConnected with
            circuit_nodes := wCircConnected.circuit_nodes ++ [wNode],
            associated_hs := some wHS }, [], Except.ok ()) := by
  have h1 := (extend_to_hidden_assoc wCircAssoc wHS
    (Except.error TorErr.cellTimeout)).1 wHS rfl rfl
  have h2 := (extend_to_hidden_assoc wCircAssoc wHS2 (Except.ok wNode)).2.1 wHS rfl (by decide)
  have h3 := (extend_to_hidden_assoc wCircConnected wHS (Except.ok wNode)).2.2 wNode rfl rfl
  exact ⟨h1, h2, h3.1, h3.2 (Except.error TorErr.cellTimeout)⟩

end Torpy
